import Mathlib

/-!
Verification of the DRIBBLE-Android admin client's order-lifecycle logic.

The definitions below are a shallow embedding of the TypeScript source:
the order-detail screen (`app/order/[id].tsx`), the theme / status
registry (`constants/theme.ts`), the API services layer (`services/api.ts`,
both the current PUT-based variant and the legacy PATCH-based variant) and
the list screen's response decoding (`app/orders.tsx`). JavaScript
peculiarities that the claims depend on are modelled explicitly:
`Array.indexOf` returning -1, falsy coalescing with `||`, and property
access on `null` throwing a TypeError.
-/

namespace Dribble

/-- The canonical forward ordering of order statuses.
Source: `STATUS_FLOW` in `app/order/[id].tsx` line 18. -/
def STATUS_FLOW : List String :=
  ["pending", "payment_pending", "paid", "confirmed", "processing", "shipped", "delivered"]

/-- JavaScript `Array.prototype.indexOf`: the index of the first occurrence
of `s`, or `-1` when `s` does not occur. -/
def jsIndexOf (s : String) : List String → Int
  | [] => -1
  | x :: xs =>
    if x = s then 0
    else if jsIndexOf s xs = -1 then -1 else jsIndexOf s xs + 1

/-- The transition resolver of the order-detail screen.
Source: `getNextStatus` in `app/order/[id].tsx` lines 43-56.
The TypeScript returns `STATUS_FLOW[currentIndex + 1]` under a guard that
keeps the index in range; the `Option` returned by `List.get?` is `some`
in that branch, and `none` models the `null` of the early return. -/
def getNextStatus (currentStatus : String) : Option String :=
  let currentIndex := jsIndexOf currentStatus STATUS_FLOW
  if currentIndex = -1 ∨ currentIndex ≥ (STATUS_FLOW.length : Int) - 1 then
    none
  else if currentStatus = "pending" then
    some "confirmed"
  else if currentStatus = "paid" then
    some "confirmed"
  else
    STATUS_FLOW.get? (currentIndex + 1).toNat

/-- The text color used for muted text, `colors.textMuted` in
`constants/theme.ts`. -/
def colorsTextMuted : String := "#64748B"

/-- The surface background color, `colors.surface` in `constants/theme.ts`. -/
def colorsSurface : String := "#1E293B"

/-- A status registry entry: display label, emphasis color and background
color, as in `ORDER_STATUS_CONFIG` of `constants/theme.ts`. -/
structure StatusConfig where
  label : String
  color : String
  bgColor : String
deriving DecidableEq, Repr

/-- The status registry table. Source: `ORDER_STATUS_CONFIG` in
`constants/theme.ts` lines 71-80, with the theme color constants inlined. -/
def ORDER_STATUS_CONFIG : List (String × StatusConfig) :=
  [("pending", ⟨"Pending", "#F59E0B", "rgba(245, 158, 11, 0.15)"⟩),
   ("payment_pending", ⟨"Payment Pending", "#F97316", "rgba(249, 115, 22, 0.15)"⟩),
   ("paid", ⟨"Paid", "#10B981", "rgba(16, 185, 129, 0.15)"⟩),
   ("confirmed", ⟨"Confirmed", "#3B82F6", "rgba(59, 130, 246, 0.15)"⟩),
   ("processing", ⟨"Processing", "#8B5CF6", "rgba(139, 92, 246, 0.15)"⟩),
   ("shipped", ⟨"Shipped", "#6366F1", "rgba(99, 102, 241, 0.15)"⟩),
   ("delivered", ⟨"Delivered", "#059669", "rgba(5, 150, 105, 0.15)"⟩),
   ("cancelled", ⟨"Cancelled", "#EF4444", "rgba(239, 68, 68, 0.15)"⟩)]

/-- The member names a JavaScript bracket read on a plain object literal
inherits from the standard prototype of objects: its seven named methods,
the four legacy getter/setter methods, and the accessor for the prototype
itself. Reading any of them yields a truthy value (a function, or the
prototype object), none of which carries a label property. -/
def objectPrototypeMembers : List String :=
  ["constructor", "hasOwnProperty", "isPrototypeOf", "propertyIsEnumerable",
   "toLocaleString", "toString", "valueOf",
   "__defineGetter__", "__defineSetter__", "__lookupGetter__", "__lookupSetter__",
   "__proto__"]

/-- What the registry resolve function returns: a plain configuration
object, or a truthy member inherited from the prototype of objects (whose
label property is the undefined value). -/
inductive StatusConfigResult where
  | config (c : StatusConfig)
  | inherited (name : String)
deriving DecidableEq

/-- The registry resolve function. Source: `getStatusConfig` in
`constants/theme.ts` lines 82-84, the bracket read of the table or-else a
fallback built from the raw status string with muted color and surface
background. The bracket read consults the prototype chain: an own table
entry first, then the inherited members of the object prototype (truthy,
so the or-else does not fall back on them), and only otherwise the
undefined value that makes the or-else yield the fallback. -/
def getStatusConfig (status : String) : StatusConfigResult :=
  match ORDER_STATUS_CONFIG.lookup status with
  | some c => .config c
  | none =>
    if status ∈ objectPrototypeMembers then .inherited status
    else .config ⟨status, colorsTextMuted, colorsSurface⟩

/-- The label member of a resolve result: defined on a configuration
object, the undefined value on an inherited prototype member. -/
def labelMember : StatusConfigResult → Option String
  | .config c => some c.label
  | .inherited _ => none

/-- JavaScript template-literal rendering of a possibly-undefined string. -/
def jsDisplay : Option String → String
  | some s => s
  | none => "undefined"

/-- Cancellation eligibility of the order-detail screen.
Source: `canCancel` in `app/order/[id].tsx` line 156. -/
def canCancel (status : String) : Bool :=
  !((["cancelled", "delivered", "shipped"] : List String).contains status)

/-- The guard around the whole action-button container.
Source: `app/order/[id].tsx` line 363. -/
def actionContainerRendered (status : String) : Bool :=
  status != "cancelled" && status != "delivered"

/-- Whether the cancel control is rendered: the action container is
rendered and `canCancel` holds. Source: `app/order/[id].tsx` lines 363-374. -/
def cancelActionRendered (status : String) : Bool :=
  actionContainerRendered status && canCancel status

/-- A JSON-like JavaScript value, as the client receives response bodies. -/
inductive JSVal where
  | jnull
  | jbool (b : Bool)
  | jnum (n : Int)
  | jstr (s : String)
  | jarr (elems : List JSVal)
  | jobj (fields : List (String × JSVal))

/-- JavaScript truthiness of a value. -/
def jsTruthy : JSVal → Bool
  | .jnull => false
  | .jbool b => b
  | .jnum n => n != 0
  | .jstr s => s != ""
  | .jarr _ => true
  | .jobj _ => true

/-- JavaScript `Array.isArray`. -/
def isArray : JSVal → Bool
  | .jarr _ => true
  | _ => false

/-- The outcome of a JavaScript property access: a thrown TypeError, the
undefined value, or the property value. -/
inductive PropAccess where
  | thrown
  | jsUndefined
  | val (v : JSVal)

/-- Property access `v[name]`: throws on null, reads the field of an
object carrying it, and is undefined for objects without the field and
for the other primitives. -/
def getProp (v : JSVal) (name : String) : PropAccess :=
  match v with
  | .jnull => .thrown
  | .jobj fields =>
    match fields.lookup name with
    | some x => .val x
    | none => .jsUndefined
  | _ => .jsUndefined

/-- The list screen's decode of a list response, the expression
`Array.isArray(data) ? data : data.orders || ...` with `...` the empty
array, at `app/orders.tsx` line 51. `.error` models a thrown TypeError. -/
def ordersFromResponse (data : JSVal) : Except Unit JSVal :=
  if isArray data then .ok data
  else
    match getProp data "orders" with
    | .thrown => .error ()
    | .jsUndefined => .ok (.jarr [])
    | .val v => .ok (if jsTruthy v then v else .jarr [])

/-- How the network call behind the list screen's `fetchOrders` ends:
rejected with an optional response status, or resolved with a body. -/
inductive FetchOrdersOutcome where
  | httpError (status : Option Nat)
  | payload (data : JSVal)

/-- The displayed orders value, and whether an alert is surfaced, after
one run of `fetchOrders` (`app/orders.tsx` lines 41-62): a decoded
payload replaces the list; a thrown decode error or a rejected request is
caught, leaving the previous list, and an alert is shown only for a 401
response status. -/
def fetchOrdersResult (outcome : FetchOrdersOutcome) (prevOrders : JSVal) :
    JSVal × Bool :=
  match outcome with
  | .httpError st => (prevOrders, st == some 401)
  | .payload data =>
    match ordersFromResponse data with
    | .ok v => (v, false)
    | .error _ => (prevOrders, false)

/-- An alert shown to the operator: title and message. -/
structure AlertMsg where
  title : String
  message : String
deriving DecidableEq, Repr

/-- A remote call issued by the order-detail screen. -/
inductive ApiCall where
  | putOrderStatus (orderId status : String)
  | postCancelOrder (orderId reason : String)
  | getOrderById (orderId : String)
deriving DecidableEq, Repr

/-- A rejected axios call as the handlers see it: the optional
`error.response.data.detail` text (absent when the response, its data or
the detail field is missing). -/
structure ApiFailure where
  detail : Option String
deriving DecidableEq, Repr

/-- JavaScript falsy coalescing `x` or-else `fallback` on an optional
string: an absent or empty string yields the fallback. -/
def jsOrString : Option String → String → String
  | some s, fallback => if s = "" then fallback else s
  | none, fallback => fallback

/-- The order-detail screen state the handlers touch. -/
structure OrderScreenState where
  order : Option JSVal
  isLoading : Bool
  isUpdating : Bool

/-- One run of `fetchOrder` (`app/order/[id].tsx` lines 30-41): issue the
GET, store the payload verbatim on success, alert on failure; the loading
flag ends false either way. Yields the state, alerts and issued calls. -/
def fetchOrder (getOrderResult : Except ApiFailure JSVal) (id : String)
    (s : OrderScreenState) : OrderScreenState × List AlertMsg × List ApiCall :=
  match getOrderResult with
  | .ok data =>
    ({ s with order := some data, isLoading := false }, [], [.getOrderById id])
  | .error _ =>
    ({ s with isLoading := false },
     [⟨"Error", "Failed to load order details"⟩], [.getOrderById id])

/-- The confirmed branch of `handleUpdateStatus`
(`app/order/[id].tsx` lines 68-79): issue the status update; on success
run `fetchOrder` and show the success alert; on failure alert with the
server detail or the generic text; the updating flag ends false. -/
def handleUpdateStatusConfirm (id newStatus : String)
    (updateResult : Except ApiFailure JSVal) (getOrderResult : Except ApiFailure JSVal)
    (s : OrderScreenState) : OrderScreenState × List AlertMsg × List ApiCall :=
  match updateResult with
  | .ok _ =>
    let r := fetchOrder getOrderResult id { s with isUpdating := true }
    ({ r.1 with isUpdating := false },
     r.2.1 ++ [⟨"Success",
       "Order status updated to " ++ jsDisplay (labelMember (getStatusConfig newStatus))⟩],
     .putOrderStatus id newStatus :: r.2.2)
  | .error e =>
    ({ s with isUpdating := false },
     [⟨"Error", jsOrString e.detail "Failed to update status"⟩],
     [.putOrderStatus id newStatus])

/-- The confirmed branch of `handleCancelOrder`
(`app/order/[id].tsx` lines 95-107): issue the cancel with the fixed
admin reason; on success run `fetchOrder` and show the cancelled alert;
on failure alert with the server detail or the generic text. -/
def handleCancelOrderConfirm (id : String)
    (cancelResult : Except ApiFailure JSVal) (getOrderResult : Except ApiFailure JSVal)
    (s : OrderScreenState) : OrderScreenState × List AlertMsg × List ApiCall :=
  match cancelResult with
  | .ok _ =>
    let r := fetchOrder getOrderResult id { s with isUpdating := true }
    ({ r.1 with isUpdating := false },
     r.2.1 ++ [⟨"Order Cancelled", "The order has been cancelled successfully."⟩],
     .postCancelOrder id "Cancelled by admin from mobile app" :: r.2.2)
  | .error e =>
    ({ s with isUpdating := false },
     [⟨"Error", jsOrString e.detail "Failed to cancel order"⟩],
     [.postCancelOrder id "Cancelled by admin from mobile app"])

/-- The persisted credential store (SecureStore, or AsyncStorage on web). -/
structure TokenStore where
  token : Option String
deriving DecidableEq, Repr

/-- `removeAuthToken` of `services/api.ts`: deletes the stored token. -/
def removeAuthToken (_store : TokenStore) : TokenStore := ⟨none⟩

/-- The request interceptor of `services/api.ts` lines 46-57: the
Authorization header attached to an outgoing request is `Bearer` plus the
stored token when one is present, and nothing otherwise. -/
def authorizationHeader (store : TokenStore) : Option String :=
  match store.token with
  | some t => some ("Bearer " ++ t)
  | none => none

/-- The error path of the response interceptor of `services/api.ts` lines
60-69: a 401 response status evicts the stored token via
`removeAuthToken`; anything else leaves the store untouched. The argument
is the optional `error.response.status`. -/
def responseErrorInterceptor (status : Option Nat) (store : TokenStore) : TokenStore :=
  if status == some 401 then removeAuthToken store else store

/-- The shared axios pipeline: a 2xx response resolves; any other status
rejects and passes through the response interceptor, which is installed
once on the instance and hence applies to every call made through it. -/
def apiDispatch (store : TokenStore) (respStatus : Nat) :
    Except (Option Nat) Unit × TokenStore :=
  if 200 ≤ respStatus ∧ respStatus < 300 then (.ok (), store)
  else (.error (some respStatus), responseErrorInterceptor (some respStatus) store)

/-- An HTTP request as the services layer constructs it. -/
structure HttpRequest where
  method : String
  urlPath : String
  body : List (String × JSVal)

/-- `ordersAPI.updateOrderStatus` of the current `services/api.ts` (the
variant synced with the new backend): a PUT to the status path. -/
def updateOrderStatusRequest (orderId status : String) : HttpRequest :=
  { method := "PUT"
    urlPath := "/admin/orders/" ++ orderId ++ "/status"
    body := [("status", .jstr status)] }

/-- `ordersAPI.cancelOrder` of the current `services/api.ts`: a POST to
the cancel path with the optional reason. -/
def cancelOrderRequest (orderId : String) (reason : Option String) : HttpRequest :=
  { method := "POST"
    urlPath := "/admin/orders/" ++ orderId ++ "/cancel"
    body := [("reason", match reason with | some r => .jstr r | none => .jnull)] }

/-- `ordersAPI.updateOrderStatus` of the legacy `services/api.ts`: the
older PATCH variant of the same status path. -/
def legacyUpdateOrderStatusRequest (orderId status : String) : HttpRequest :=
  { method := "PATCH"
    urlPath := "/admin/orders/" ++ orderId ++ "/status"
    body := [("status", .jstr status)] }

/-- The request behind each remote call of the order-detail screen. -/
def requestOfCall : ApiCall → HttpRequest
  | .putOrderStatus id st => updateOrderStatusRequest id st
  | .postCancelOrder id reason => cancelOrderRequest id (some reason)
  | .getOrderById id => { method := "GET", urlPath := "/orders/" ++ id, body := [] }

end Dribble

namespace Dribble

/-- JavaScript `indexOf` yields -1 exactly when the element is absent. -/
theorem jsIndexOf_of_not_mem {s : String} {l : List String} (h : s ∉ l) :
    jsIndexOf s l = -1 := by
  induction l with
  | nil => rfl
  | cons x xs ih =>
    rw [List.mem_cons] at h
    push_neg at h
    rw [jsIndexOf, if_neg (fun hx => h.1 hx.symm), ih h.2, if_pos rfl]

/-- A status outside the canonical ordering is never advanced. -/
theorem getNextStatus_not_mem {s : String} (h : s ∉ STATUS_FLOW) :
    getNextStatus s = none := by
  simp [getNextStatus, jsIndexOf_of_not_mem h]

/-- C1: the five specified equalities of the transition resolver:
pending ↦ confirmed, paid ↦ confirmed, delivered ↦ none,
cancelled ↦ none, confirmed ↦ processing. -/
theorem getNextStatus_five_equalities :
    getNextStatus "pending" = some "confirmed" ∧
    getNextStatus "paid" = some "confirmed" ∧
    getNextStatus "delivered" = none ∧
    getNextStatus "cancelled" = none ∧
    getNextStatus "confirmed" = some "processing" := by
  refine ⟨?_, ?_, ?_, ?_, ?_⟩ <;> decide

/-- C2: a status outside the canonical forward ordering, or its last
element delivered, is not advanced; every element other than pending and
paid advances to the immediately following element of the ordering. -/
theorem getNextStatus_flow_rules :
    (∀ current : String, current ∉ STATUS_FLOW → getNextStatus current = none) ∧
    getNextStatus "delivered" = none ∧
    getNextStatus "payment_pending" = some "paid" ∧
    getNextStatus "confirmed" = some "processing" ∧
    getNextStatus "processing" = some "shipped" ∧
    getNextStatus "shipped" = some "delivered" := by
  exact ⟨fun _ h => getNextStatus_not_mem h, by decide, by decide, by decide, by decide, by decide⟩

/-- C2 witness: the unknown status refunded is not advanced. -/
theorem getNextStatus_flow_rules_witness : getNextStatus "refunded" = none :=
  getNextStatus_flow_rules.1 "refunded" (by decide)

/-- C10: the resolver never yields pending, payment_pending or cancelled,
and whenever it advances a status of the canonical ordering, the target
occupies a strictly greater index in that ordering. -/
theorem getNextStatus_forward_only :
    (∀ s : String, getNextStatus s ≠ some "pending" ∧
      getNextStatus s ≠ some "payment_pending" ∧ getNextStatus s ≠ some "cancelled") ∧
    (∀ s t : String, s ∈ STATUS_FLOW → getNextStatus s = some t →
      jsIndexOf s STATUS_FLOW < jsIndexOf t STATUS_FLOW) := by
  constructor
  · intro s
    by_cases hm : s ∈ STATUS_FLOW
    · simp only [STATUS_FLOW, List.mem_cons, List.not_mem_nil, or_false] at hm
      rcases hm with rfl | rfl | rfl | rfl | rfl | rfl | rfl <;>
        exact ⟨by decide, by decide, by decide⟩
    · rw [getNextStatus_not_mem hm]
      exact ⟨by decide, by decide, by decide⟩
  · intro s t hm ht
    simp only [STATUS_FLOW, List.mem_cons, List.not_mem_nil, or_false] at hm
    rcases hm with rfl | rfl | rfl | rfl | rfl | rfl | rfl
    · rw [show getNextStatus "pending" = some "confirmed" from by decide] at ht
      injection ht with h
      subst h
      decide
    · rw [show getNextStatus "payment_pending" = some "paid" from by decide] at ht
      injection ht with h
      subst h
      decide
    · rw [show getNextStatus "paid" = some "confirmed" from by decide] at ht
      injection ht with h
      subst h
      decide
    · rw [show getNextStatus "confirmed" = some "processing" from by decide] at ht
      injection ht with h
      subst h
      decide
    · rw [show getNextStatus "processing" = some "shipped" from by decide] at ht
      injection ht with h
      subst h
      decide
    · rw [show getNextStatus "shipped" = some "delivered" from by decide] at ht
      injection ht with h
      subst h
      decide
    · rw [show getNextStatus "delivered" = none from by decide] at ht
      exact Option.noConfusion ht

/-- C10 witness: advancing paid lands strictly later in the ordering. -/
theorem getNextStatus_forward_only_witness :
    jsIndexOf "paid" STATUS_FLOW < jsIndexOf "confirmed" STATUS_FLOW :=
  getNextStatus_forward_only.2 "paid" "confirmed" (by decide) (by decide)

/-- An association-list lookup misses when the key is not among the keys. -/
theorem lookup_eq_none_of_not_mem_keys {α β : Type} [BEq α] [LawfulBEq α]
    {a : α} {l : List (α × β)} (h : a ∉ l.map Prod.fst) : l.lookup a = none := by
  induction l with
  | nil => rfl
  | cons x xs ih =>
    obtain ⟨k, b⟩ := x
    simp only [List.map_cons, List.mem_cons] at h
    push_neg at h
    simp [List.lookup, beq_eq_false_iff_ne.mpr h.1, ih h.2]

/-- C3: the cancel control is rendered exactly when the status is not
cancelled, delivered or shipped; the rendering condition coincides with
the pure `canCancel` predicate (which never consults the advance
resolver), and the claimed concrete statuses behave as stated. -/
theorem cancelActionRendered_iff :
    (∀ s : String, cancelActionRendered s = true ↔
      s ∉ (["cancelled", "delivered", "shipped"] : List String)) ∧
    (∀ s : String, cancelActionRendered s = canCancel s) ∧
    cancelActionRendered "pending" = true ∧
    cancelActionRendered "paid" = true ∧
    cancelActionRendered "processing" = true ∧
    cancelActionRendered "shipped" = false := by
  refine ⟨fun s => ?_, fun s => ?_, by decide, by decide, by decide, by decide⟩ <;>
    by_cases h1 : s = "cancelled" <;> by_cases h2 : s = "delivered" <;>
      by_cases h3 : s = "shipped" <;>
        simp [cancelActionRendered, actionContainerRendered, canCancel, h1, h2, h3]

/-- C3 witness: the control is rendered for a paid order. -/
theorem cancelActionRendered_iff_witness : cancelActionRendered "paid" = true :=
  (cancelActionRendered_iff.1 "paid").mpr (by decide)

/-- C8 counterexample: the input toString is outside the eight known
codes, yet the bracket read hits the inherited prototype member, so the
resolve result is not the raw-label fallback and its label member is the
undefined value rather than the raw input string. -/
theorem getStatusConfig_proto_cex :
    getStatusConfig "toString" = .inherited "toString" ∧
    ¬ getStatusConfig "toString" =
      .config ⟨"toString", colorsTextMuted, colorsSurface⟩ ∧
    ¬ labelMember (getStatusConfig "toString") = some "toString" := by
  exact ⟨by decide, by decide, by decide⟩

/-- C8 as amended: the resolve function never fails; for every input
outside the eight known codes that is not a name inherited from the
object prototype it returns the fallback labelled by the raw input with
muted color and surface background; for the inherited names it returns
the truthy inherited member, whose label member is undefined; the eight
known codes map to their fixed label/color pairs. -/
theorem getStatusConfig_resolve_amended :
    (∀ s : String, s ∉ ORDER_STATUS_CONFIG.map Prod.fst →
      s ∉ objectPrototypeMembers →
      getStatusConfig s = .config ⟨s, colorsTextMuted, colorsSurface⟩) ∧
    (∀ s : String, s ∈ objectPrototypeMembers →
      getStatusConfig s = .inherited s ∧ labelMember (getStatusConfig s) = none) ∧
    getStatusConfig "pending" = .config ⟨"Pending", "#F59E0B", "rgba(245, 158, 11, 0.15)"⟩ ∧
    getStatusConfig "payment_pending" = .config ⟨"Payment Pending", "#F97316", "rgba(249, 115, 22, 0.15)"⟩ ∧
    getStatusConfig "paid" = .config ⟨"Paid", "#10B981", "rgba(16, 185, 129, 0.15)"⟩ ∧
    getStatusConfig "confirmed" = .config ⟨"Confirmed", "#3B82F6", "rgba(59, 130, 246, 0.15)"⟩ ∧
    getStatusConfig "processing" = .config ⟨"Processing", "#8B5CF6", "rgba(139, 92, 246, 0.15)"⟩ ∧
    getStatusConfig "shipped" = .config ⟨"Shipped", "#6366F1", "rgba(99, 102, 241, 0.15)"⟩ ∧
    getStatusConfig "delivered" = .config ⟨"Delivered", "#059669", "rgba(5, 150, 105, 0.15)"⟩ ∧
    getStatusConfig "cancelled" = .config ⟨"Cancelled", "#EF4444", "rgba(239, 68, 68, 0.15)"⟩ := by
  refine ⟨fun s h1 h2 => ?_, fun s hm => ?_, by decide, by decide, by decide,
    by decide, by decide, by decide, by decide, by decide⟩
  · simp only [getStatusConfig, lookup_eq_none_of_not_mem_keys h1]
    rw [if_neg h2]
  · simp only [objectPrototypeMembers, List.mem_cons, List.not_mem_nil,
      or_false] at hm
    rcases hm with rfl | rfl | rfl | rfl | rfl | rfl | rfl | rfl | rfl | rfl |
      rfl | rfl <;> exact ⟨by decide, by decide⟩

/-- C8 witness: an unknown non-inherited status code resolves to the
raw-label fallback, and an inherited name to the inherited member. -/
theorem getStatusConfig_resolve_amended_witness :
    getStatusConfig "on_hold" = .config ⟨"on_hold", colorsTextMuted, colorsSurface⟩ ∧
    getStatusConfig "valueOf" = .inherited "valueOf" :=
  ⟨getStatusConfig_resolve_amended.1 "on_hold" (by decide) (by decide),
   (getStatusConfig_resolve_amended.2.1 "valueOf" (by decide)).1⟩

/-- C4: after a successful advance or cancel mutation, the screen issues
exactly the mutation followed by a full re-fetch of the order, and the
displayed order is exactly the freshly fetched payload, whatever the
pre-mutation client copy held. -/
theorem mutation_refetch_sync :
    (∀ (id ns : String) (u data : JSVal) (s : OrderScreenState),
      (handleUpdateStatusConfirm id ns (.ok u) (.ok data) s).1.order = some data ∧
      (handleUpdateStatusConfirm id ns (.ok u) (.ok data) s).2.2 =
        [.putOrderStatus id ns, .getOrderById id]) ∧
    (∀ (id : String) (u data : JSVal) (s : OrderScreenState),
      (handleCancelOrderConfirm id (.ok u) (.ok data) s).1.order = some data ∧
      (handleCancelOrderConfirm id (.ok u) (.ok data) s).2.2 =
        [.postCancelOrder id "Cancelled by admin from mobile app", .getOrderById id]) :=
  ⟨fun _ _ _ _ _ => ⟨rfl, rfl⟩, fun _ _ _ _ => ⟨rfl, rfl⟩⟩

/-- C5: a rejected advance or cancel mutation leaves the displayed state
untouched (only the in-flight flag ends false), surfaces one error alert
whose message is the server detail text when a non-empty one is present
and the generic message otherwise, and issues no further call. -/
theorem mutation_failure_handling :
    (∀ (id ns : String) (e : ApiFailure) (g : Except ApiFailure JSVal)
        (s : OrderScreenState),
      (handleUpdateStatusConfirm id ns (.error e) g s).1 = { s with isUpdating := false } ∧
      (handleUpdateStatusConfirm id ns (.error e) g s).2.1 =
        [⟨"Error", jsOrString e.detail "Failed to update status"⟩] ∧
      (handleUpdateStatusConfirm id ns (.error e) g s).2.2 = [.putOrderStatus id ns]) ∧
    (∀ (id : String) (e : ApiFailure) (g : Except ApiFailure JSVal)
        (s : OrderScreenState),
      (handleCancelOrderConfirm id (.error e) g s).1 = { s with isUpdating := false } ∧
      (handleCancelOrderConfirm id (.error e) g s).2.1 =
        [⟨"Error", jsOrString e.detail "Failed to cancel order"⟩] ∧
      (handleCancelOrderConfirm id (.error e) g s).2.2 =
        [.postCancelOrder id "Cancelled by admin from mobile app"]) ∧
    (∀ d fallback : String, d ≠ "" → jsOrString (some d) fallback = d) ∧
    (∀ fallback : String, jsOrString none fallback = fallback) := by
  refine ⟨fun _ _ _ _ _ => ⟨rfl, rfl, rfl⟩, fun _ _ _ _ => ⟨rfl, rfl, rfl⟩,
    fun d fallback hd => ?_, fun _ => rfl⟩
  simp [jsOrString, hd]

/-- C5 witness: a present server detail text is the alert message. -/
theorem mutation_failure_handling_witness :
    jsOrString (some "Order already delivered") "Failed to update status" =
      "Order already delivered" :=
  mutation_failure_handling.2.2.1 "Order already delivered" "Failed to update status"
    (by decide)

/-- C6 counterexample: a null response body is of a shape that is neither
a bare array nor an object with an orders field, yet its decode throws,
the error is swallowed and the previously displayed non-empty list stays
displayed instead of an empty one. -/
theorem fetchOrders_shape_tolerance_cex :
    fetchOrdersResult (.payload .jnull) (.jarr [.jstr "previous-order"]) =
      (.jarr [.jstr "previous-order"], false) ∧
    ¬ fetchOrdersResult (.payload .jnull) (.jarr [.jstr "previous-order"]) =
      (.jarr [], false) := by
  refine ⟨rfl, fun h => ?_⟩
  rw [show fetchOrdersResult (.payload .jnull) (.jarr [.jstr "previous-order"]) =
    (.jarr [.jstr "previous-order"], false) from rfl] at h
  simp at h

/-- C6 as amended: a bare array and an object wrapping the same array in
an orders field decode to the identical displayed list; a non-array
response whose orders access yields undefined or a falsy value decodes to
the empty list with no alert; a null body is caught leaving the previous
list with no alert; a truthy non-array orders field is stored as-is. -/
theorem fetchOrders_shape_tolerance :
    (∀ (xs : List JSVal) (prev : JSVal),
      fetchOrdersResult (.payload (.jarr xs)) prev =
        fetchOrdersResult (.payload (.jobj [("orders", .jarr xs)])) prev ∧
      fetchOrdersResult (.payload (.jarr xs)) prev = (.jarr xs, false)) ∧
    (∀ data prev : JSVal, isArray data = false →
      (getProp data "orders" = .jsUndefined ∨
        ∃ v, getProp data "orders" = .val v ∧ jsTruthy v = false) →
      fetchOrdersResult (.payload data) prev = (.jarr [], false)) ∧
    (∀ prev : JSVal, fetchOrdersResult (.payload .jnull) prev = (prev, false)) ∧
    (∀ (v prev : JSVal), jsTruthy v = true → isArray v = false →
      fetchOrdersResult (.payload (.jobj [("orders", v)])) prev = (v, false)) := by
  refine ⟨fun xs prev => ⟨?_, ?_⟩, fun data prev hna hcase => ?_, fun _ => rfl,
    fun v prev htr hna => ?_⟩
  · simp [fetchOrdersResult, ordersFromResponse, isArray, getProp, List.lookup, jsTruthy]
  · simp [fetchOrdersResult, ordersFromResponse, isArray]
  · rcases hcase with h | ⟨v, hv, htr⟩ <;>
      simp [fetchOrdersResult, ordersFromResponse, hna, *]
  · simp [fetchOrdersResult, ordersFromResponse, isArray, getProp, List.lookup, htr]

/-- C6 witness: a response whose orders field is null decodes to the
empty list with no alert. -/
theorem fetchOrders_shape_tolerance_witness :
    fetchOrdersResult (.payload (.jobj [("orders", .jnull)])) (.jarr []) =
      (.jarr [], false) :=
  fetchOrders_shape_tolerance.2.1 (.jobj [("orders", .jnull)]) (.jarr []) rfl
    (Or.inr ⟨.jnull, rfl, rfl⟩)

/-- C7: a 401 response evicts the stored bearer token through the shared
transport pipeline, so the next outgoing request carries no Authorization
header; a non-401 rejection leaves the store untouched, and the
interceptor itself maps any stored token to none on a 401. -/
theorem unauthorized_evicts_token :
    (∀ store : TokenStore, (apiDispatch store 401).2.token = none ∧
      authorizationHeader (apiDispatch store 401).2 = none) ∧
    (∀ (store : TokenStore) (st : Nat), st ≠ 401 → (apiDispatch store st).2 = store) ∧
    (∀ t : String, responseErrorInterceptor (some 401) ⟨some t⟩ = ⟨none⟩) := by
  have h401 : ¬(200 ≤ 401 ∧ 401 < 300) := by decide
  refine ⟨fun store => ?_, fun store st hne => ?_, fun _ => rfl⟩
  · simp [apiDispatch, h401, responseErrorInterceptor, removeAuthToken,
      authorizationHeader]
  · by_cases h2 : 200 ≤ st ∧ st < 300
    · simp [apiDispatch, h2]
    · have hb : (some st == some 401) = false :=
        beq_eq_false_iff_ne.mpr (fun hc => hne (Option.some.inj hc))
      simp [apiDispatch, h2, responseErrorInterceptor, hb]

/-- C7 witness: a 500 rejection does not evict a stored token. -/
theorem unauthorized_evicts_token_witness :
    (apiDispatch ⟨some "tok-1"⟩ 500).2 = ⟨some "tok-1"⟩ :=
  unauthorized_evicts_token.2.1 ⟨some "tok-1"⟩ 500 (by decide)

/-- C9: the advance mutation issued by the screen is a PUT to the order's
status path carrying the target status in the body, the cancel mutation
is a POST to the order's cancel path, and the legacy services layer's
advance variant is the same status path under PATCH. -/
theorem mutation_request_shapes :
    (∀ id st : String, requestOfCall (.putOrderStatus id st) =
      ⟨"PUT", "/admin/orders/" ++ id ++ "/status", [("status", .jstr st)]⟩) ∧
    (∀ id reason : String, requestOfCall (.postCancelOrder id reason) =
      ⟨"POST", "/admin/orders/" ++ id ++ "/cancel", [("reason", .jstr reason)]⟩) ∧
    (∀ id st : String, (legacyUpdateOrderStatusRequest id st).method = "PATCH" ∧
      (legacyUpdateOrderStatusRequest id st).urlPath =
        "/admin/orders/" ++ id ++ "/status") :=
  ⟨fun _ _ => rfl, fun _ _ => rfl, fun _ _ => ⟨rfl, rfl⟩⟩

end Dribble
